import Mathlib

/-!
Verification of `flutter/flow/embedded_views.h`.

The header defines the mutator stack used to composite embedded platform
views: `Mutator` (a tagged variant of one visual operation), `MutatorsStack`
(an ordered sequence of shared mutators), `EmbeddedViewParams` (a value
object with an eagerly cached bounding rectangle), `EmbedderViewSlice`
(a region-queryable recording of drawing commands) and
`ExternalViewEmbedder` (the per-frame state machine base class).

Geometry payload types (`DlRect`, `DlMatrix`, `DlRegion`, ...) and the
out-of-header method bodies (`MutatorsStack::Push*`, `Pop`, `PopTo`, the
`DisplayListEmbedderViewSlice` recording state, and the rasterizer-driven
frame lifecycle) are external to the header; they are modelled from the
specification and marked as such in their doc comments.
-/

namespace EmbeddedViews

/-- Axis-aligned rectangle with rational coordinates, standing for `DlRect`
(the header uses it opaquely as a payload). -/
structure DlRect where
  left : ℚ
  top : ℚ
  right : ℚ
  bottom : ℚ
deriving DecidableEq

/-- A width/height pair, standing for `DlSize`. -/
structure DlSize where
  width : ℚ
  height : ℚ
deriving DecidableEq

/-- `DlRect::MakeSize(size)`: the rectangle `(0, 0, size.width, size.height)`. -/
def DlRect.MakeSize (s : DlSize) : DlRect :=
  ⟨0, 0, s.width, s.height⟩

/-- 4x4 matrix with rational entries, standing for `DlMatrix`; `mij` is the
entry at row `i`, column `j`. Only the action on `(x, y, 0, 1)` homogeneous
points matters here. -/
structure DlMatrix where
  m00 : ℚ
  m01 : ℚ
  m03 : ℚ
  m10 : ℚ
  m11 : ℚ
  m13 : ℚ
  m30 : ℚ
  m31 : ℚ
  m33 : ℚ
deriving DecidableEq

/-- The translation matrix by `(tx, ty)`. -/
def DlMatrix.translate (tx ty : ℚ) : DlMatrix :=
  ⟨1, 0, tx, 0, 1, ty, 0, 0, 1⟩

/-- Image of the point `(x, y)` (at `z = 0`, `w = 1`) under the matrix,
with the homogeneous divide. -/
def DlMatrix.transformPoint (m : DlMatrix) (x y : ℚ) : ℚ × ℚ :=
  let w := m.m30 * x + m.m31 * y + m.m33
  ((m.m00 * x + m.m01 * y + m.m03) / w, (m.m10 * x + m.m11 * y + m.m13) / w)

/-- Modelled from the spec: `DlRect::TransformAndClipBounds(matrix)` (defined
in the display-list geometry library, outside this header) — "a bounds
transform that accounts for clipping of the transformed rectangle against
representable bounds". Over exact rationals no overflow can occur, so the
model transforms the four corners and takes their bounding box. -/
def DlRect.TransformAndClipBounds (r : DlRect) (m : DlMatrix) : DlRect :=
  let p1 := m.transformPoint r.left r.top
  let p2 := m.transformPoint r.right r.top
  let p3 := m.transformPoint r.left r.bottom
  let p4 := m.transformPoint r.right r.bottom
  { left := min (min p1.1 p2.1) (min p3.1 p4.1)
    top := min (min p1.2 p2.2) (min p3.2 p4.2)
    right := max (max p1.1 p2.1) (max p3.1 p4.1)
    bottom := max (max p1.2 p2.2) (max p3.2 p4.2) }

/-- Opaque rounded-rectangle payload, standing for `DlRoundRect`; the header
never inspects it, so it is modelled as an opaque value. -/
structure DlRoundRect where
  value : ℕ
deriving DecidableEq

/-- Opaque rounded-superellipse payload, standing for `DlRoundSuperellipse`. -/
structure DlRoundSuperellipse where
  value : ℕ
deriving DecidableEq

/-- Opaque path payload, standing for `DlPath`. -/
structure DlPath where
  value : ℕ
deriving DecidableEq

/-- Opaque image-filter payload, standing for `DlImageFilter`; the header
compares filters by value (`*filter_ == *other.filter_`). -/
structure DlImageFilter where
  value : ℕ
deriving DecidableEq

/-- A `std::shared_ptr`: an object identity (the address of the allocation)
together with the pointed-to payload. Distinct `objId`s model distinct
heap objects holding possibly equal values. -/
structure SharedPtr (α : Type) where
  objId : ℕ
  payload : α
deriving DecidableEq

/-- `ImageFilterMutation`: a shared image filter plus its rectangle in
global coordinates (`embedded_views.h` lines 46-66). -/
structure ImageFilterMutation where
  filter : SharedPtr DlImageFilter
  filterRect : DlRect

/-- `ImageFilterMutation::operator==`: dereferences the shared filter and
compares by value (`*filter_ == *other.filter_ && filter_rect_ == ...`). -/
def ImageFilterMutation.beq (a b : ImageFilterMutation) : Bool :=
  a.filter.payload == b.filter.payload && a.filterRect == b.filterRect

/-- `enum class MutatorType` (`embedded_views.h` lines 33-41). -/
inductive MutatorType where
  | kClipRect
  | kClipRRect
  | kClipRSE
  | kClipPath
  | kTransform
  | kOpacity
  | kBackdropFilter
deriving DecidableEq

/-- The error taxonomy of the core: wrong-variant access on a `Mutator`,
stack discipline violation, and compositing an unknown view id. -/
inductive CoreError where
  | typeMismatch
  | emptyStack
  | unknownView
deriving DecidableEq

/-- `Mutator` (`embedded_views.h` lines 74-135): a `std::variant` over
(rect, rounded-rect, rounded-superellipse, path, matrix, alpha byte,
image-filter mutation), in that alternative order. -/
inductive Mutator where
  | clipRect (rect : DlRect)
  | clipRRect (rrect : DlRoundRect)
  | clipRSE (rse : DlRoundSuperellipse)
  | clipPath (path : DlPath)
  | transform (matrix : DlMatrix)
  | opacity (alpha : ℕ)
  | backdropFilter (mutation : ImageFilterMutation)

namespace Mutator

/-- `Mutator::GetType`: `static_cast<MutatorType>(data_.index())` — variant
alternative order matches enum order. -/
def GetType : Mutator → MutatorType
  | .clipRect _ => .kClipRect
  | .clipRRect _ => .kClipRRect
  | .clipRSE _ => .kClipRSE
  | .clipPath _ => .kClipPath
  | .transform _ => .kTransform
  | .opacity _ => .kOpacity
  | .backdropFilter _ => .kBackdropFilter

/-- `Mutator::GetRect`: `std::get<DlRect>(data_)`; on the wrong alternative
`std::get` fails (the spec's `TypeMismatch`). -/
def GetRect : Mutator → Except CoreError DlRect
  | .clipRect r => .ok r
  | _ => .error .typeMismatch

/-- `Mutator::GetRRect`: `std::get<DlRoundRect>(data_)`. -/
def GetRRect : Mutator → Except CoreError DlRoundRect
  | .clipRRect r => .ok r
  | _ => .error .typeMismatch

/-- `Mutator::GetRSE`: `std::get<DlRoundSuperellipse>(data_)`. -/
def GetRSE : Mutator → Except CoreError DlRoundSuperellipse
  | .clipRSE r => .ok r
  | _ => .error .typeMismatch

/-- `Mutator::GetPath`: `std::get<DlPath>(data_)`. -/
def GetPath : Mutator → Except CoreError DlPath
  | .clipPath p => .ok p
  | _ => .error .typeMismatch

/-- `Mutator::GetMatrix`: `std::get<DlMatrix>(data_)`. -/
def GetMatrix : Mutator → Except CoreError DlMatrix
  | .transform m => .ok m
  | _ => .error .typeMismatch

/-- `Mutator::GetAlpha`: `std::get<uint8_t>(data_)`. -/
def GetAlpha : Mutator → Except CoreError ℕ
  | .opacity a => .ok a
  | _ => .error .typeMismatch

/-- `Mutator::GetFilterMutation`: `std::get<ImageFilterMutation>(data_)`. -/
def GetFilterMutation : Mutator → Except CoreError ImageFilterMutation
  | .backdropFilter f => .ok f
  | _ => .error .typeMismatch

/-- `Mutator::operator==`: `data_ == other.data_` — `std::variant` equality:
same alternative and equal values, using `ImageFilterMutation::operator==`
for the filter alternative. -/
def beq : Mutator → Mutator → Bool
  | .clipRect a, .clipRect b => a == b
  | .clipRRect a, .clipRRect b => a == b
  | .clipRSE a, .clipRSE b => a == b
  | .clipPath a, .clipPath b => a == b
  | .transform a, .transform b => a == b
  | .opacity a, .opacity b => a == b
  | .backdropFilter a, .backdropFilter b => a.beq b
  | _, _ => false

/-- `Mutator::IsClipType` (`embedded_views.h` lines 112-124). -/
def IsClipType (m : Mutator) : Bool :=
  match m.GetType with
  | .kClipRect => true
  | .kClipPath => true
  | .kClipRRect => true
  | .kClipRSE => true
  | .kOpacity => false
  | .kTransform => false
  | .kBackdropFilter => false

end Mutator

/-- `MutatorsStack` (`embedded_views.h` lines 146-220): an ordered vector of
shared mutators; push appends at the back (the back is the stack top). -/
structure MutatorsStack where
  vector : List (SharedPtr Mutator)

namespace MutatorsStack

/-- `MutatorsStack()` — the default-constructed empty stack. -/
def empty : MutatorsStack := ⟨[]⟩

/-- `MutatorsStack::is_empty`: `vector_.empty()`. -/
def is_empty (s : MutatorsStack) : Bool := s.vector.isEmpty

/-- `MutatorsStack::stack_count`: `vector_.size()`. -/
def stack_count (s : MutatorsStack) : ℕ := s.vector.length

/-- Modelled from the spec: `MutatorsStack::PushClipRect` (declared in the
header, body outside `src/`) — appends a freshly allocated immutable
`Mutator(rect)`; `oid` models the address of the fresh allocation. -/
def PushClipRect (s : MutatorsStack) (oid : ℕ) (rect : DlRect) : MutatorsStack :=
  ⟨s.vector ++ [⟨oid, .clipRect rect⟩]⟩

/-- Modelled from the spec: `MutatorsStack::PushClipRRect` — appends a fresh
`Mutator(rrect)`. -/
def PushClipRRect (s : MutatorsStack) (oid : ℕ) (rrect : DlRoundRect) : MutatorsStack :=
  ⟨s.vector ++ [⟨oid, .clipRRect rrect⟩]⟩

/-- Modelled from the spec: `MutatorsStack::PushClipRSE` — appends a fresh
`Mutator(rse)`. -/
def PushClipRSE (s : MutatorsStack) (oid : ℕ) (rse : DlRoundSuperellipse) : MutatorsStack :=
  ⟨s.vector ++ [⟨oid, .clipRSE rse⟩]⟩

/-- Modelled from the spec: `MutatorsStack::PushClipPath` — appends a fresh
`Mutator(path)`. -/
def PushClipPath (s : MutatorsStack) (oid : ℕ) (path : DlPath) : MutatorsStack :=
  ⟨s.vector ++ [⟨oid, .clipPath path⟩]⟩

/-- Modelled from the spec: `MutatorsStack::PushTransform` — appends a fresh
`Mutator(matrix)`. -/
def PushTransform (s : MutatorsStack) (oid : ℕ) (matrix : DlMatrix) : MutatorsStack :=
  ⟨s.vector ++ [⟨oid, .transform matrix⟩]⟩

/-- Modelled from the spec: `MutatorsStack::PushOpacity` — appends a fresh
`Mutator(alpha)`. -/
def PushOpacity (s : MutatorsStack) (oid : ℕ) (alpha : ℕ) : MutatorsStack :=
  ⟨s.vector ++ [⟨oid, .opacity alpha⟩]⟩

/-- Modelled from the spec: `MutatorsStack::PushBackdropFilter(filter,
filter_rect)` (`filter_rect` in global coordinates) — appends a fresh
`Mutator(filter, filter_rect)`, i.e. a backdrop-filter mutator. -/
def PushBackdropFilter (s : MutatorsStack) (oid : ℕ)
    (filter : SharedPtr DlImageFilter) (filterRect : DlRect) : MutatorsStack :=
  ⟨s.vector ++ [⟨oid, .backdropFilter ⟨filter, filterRect⟩⟩]⟩

/-- Modelled from the spec: `MutatorsStack::Pop` (body outside `src/`) —
"removes and destroys the most recently pushed entry (precondition:
non-empty; otherwise fails with `EmptyStack`)". -/
def Pop (s : MutatorsStack) : Except CoreError MutatorsStack :=
  if s.vector.isEmpty then .error .emptyStack
  else .ok ⟨s.vector.dropLast⟩

/-- Modelled from the spec: `MutatorsStack::PopTo(stack_count)` (body outside
`src/`) — "removes entries until exactly `n` remain (precondition: n ≤
current size)". -/
def PopTo (s : MutatorsStack) (count : ℕ) : MutatorsStack :=
  ⟨s.vector.take count⟩

/-- `MutatorsStack::operator==(const MutatorsStack&)` (`embedded_views.h`
lines 186-196): equal sizes and element-wise `*vector_[i] == *other.vector_[i]`
(dereferencing the shared pointers, so object identity is ignored). -/
def eqStack (s other : MutatorsStack) : Bool :=
  s.vector.length == other.vector.length &&
    (List.zip s.vector other.vector).all fun p => p.1.payload.beq p.2.payload

/-- `MutatorsStack::operator==(const std::vector<Mutator>&)`
(`embedded_views.h` lines 198-208): equal sizes and element-wise
`*vector_[i] == other[i]`. -/
def eqMutators (s : MutatorsStack) (other : List Mutator) : Bool :=
  s.vector.length == other.length &&
    (List.zip s.vector other).all fun p => p.1.payload.beq p.2

end MutatorsStack

/-- `EmbeddedViewParams` (`embedded_views.h` lines 222-270): the cumulative
transform, the untransformed size, the owned mutators stack, and the
eagerly cached final bounding rectangle. -/
structure EmbeddedViewParams where
  matrix : DlMatrix
  sizePoints : DlSize
  mutatorsStack : MutatorsStack
  finalBoundingRect : DlRect

namespace EmbeddedViewParams

/-- `EmbeddedViewParams(matrix, size_points, mutators_stack)`
(`embedded_views.h` lines 226-234): stores the three arguments and eagerly
computes `final_bounding_rect_ =
DlRect::MakeSize(size_points).TransformAndClipBounds(matrix)`. -/
def construct (matrix : DlMatrix) (size_points : DlSize)
    (mutators_stack : MutatorsStack) : EmbeddedViewParams :=
  { matrix := matrix
    sizePoints := size_points
    mutatorsStack := mutators_stack
    finalBoundingRect := (DlRect.MakeSize size_points).TransformAndClipBounds matrix }

/-- `EmbeddedViewParams::PushImageFilter(filter, filter_rect)`
(`embedded_views.h` lines 253-256): forwards to
`mutators_stack_.PushBackdropFilter(filter, filter_rect)` and touches no
other field (in particular the cached bounding rect is not recomputed). -/
def PushImageFilter (p : EmbeddedViewParams) (oid : ℕ)
    (filter : SharedPtr DlImageFilter) (filterRect : DlRect) : EmbeddedViewParams :=
  { p with mutatorsStack := p.mutatorsStack.PushBackdropFilter oid filter filterRect }

end EmbeddedViewParams

/-- Integer rectangle, standing for `DlIRect`. Contains the points `(x, y)`
with `left ≤ x < right` and `top ≤ y < bottom`. -/
structure DlIRect where
  left : ℤ
  top : ℤ
  right : ℤ
  bottom : ℤ
deriving DecidableEq

/-- `DlIRect::RoundOut(rect)`: the smallest enclosing integer rectangle —
floors the left/top edges and ceils the right/bottom edges. -/
def DlIRect.RoundOut (r : DlRect) : DlIRect :=
  ⟨⌊r.left⌋, ⌊r.top⌋, ⌈r.right⌉, ⌈r.bottom⌉⟩

/-- The integer point `(x, y)` lies inside the integer rectangle. -/
def DlIRect.memPt (r : DlIRect) (x y : ℤ) : Prop :=
  r.left ≤ x ∧ x < r.right ∧ r.top ≤ y ∧ y < r.bottom

instance (r : DlIRect) (x y : ℤ) : Decidable (r.memPt x y) := by
  unfold DlIRect.memPt
  infer_instance

/-- Region of the plane, standing for `DlRegion`: the union of a list of
integer rectangles (the header uses `DlRegion` opaquely through its
constructors and `MakeIntersection`). -/
structure DlRegion where
  rects : List DlIRect

/-- `DlRegion(DlIRect)` — the region of a single integer rectangle. -/
def DlRegion.ofIRect (r : DlIRect) : DlRegion := ⟨[r]⟩

/-- The integer point `(x, y)` lies in the region (in one of its
rectangles); this is the point-set semantics `DlRegion` values denote. -/
def DlRegion.memPt (rg : DlRegion) (x y : ℤ) : Prop :=
  ∃ r ∈ rg.rects, r.memPt x y

instance (rg : DlRegion) (x y : ℤ) : Decidable (rg.memPt x y) := by
  unfold DlRegion.memPt
  infer_instance

/-- Intersection of two integer rectangles. -/
def DlIRect.intersect (a b : DlIRect) : DlIRect :=
  ⟨max a.left b.left, max a.top b.top, min a.right b.right, min a.bottom b.bottom⟩

/-- `DlRegion::MakeIntersection(a, b)` — modelled as all pairwise rectangle
intersections, which has exactly the intersected point set. -/
def DlRegion.MakeIntersection (a b : DlRegion) : DlRegion :=
  ⟨(a.rects.map fun r => b.rects.map fun s => r.intersect s).flatten⟩

/-- Modelled from the spec: the `DisplayListEmbedderViewSlice` recording
state (method bodies outside `src/`) — the rectangles actually drawn into
while recording, and whether `end_recording()` has been called. -/
structure DisplayListEmbedderViewSlice where
  drawn : List DlIRect
  recordingEnded : Bool

namespace DisplayListEmbedderViewSlice

/-- Modelled from the spec: `getRegion()` — "the set of rectangles actually
drawn into, valid only after recording ends". -/
def getRegion (s : DisplayListEmbedderViewSlice) : DlRegion := ⟨s.drawn⟩

/-- Modelled from the spec: `is_empty()` — "reports whether any drawing
occurred". -/
def is_empty (s : DisplayListEmbedderViewSlice) : Bool := s.drawn.isEmpty

/-- `EmbedderViewSlice::region(query)` (`embedded_views.h` lines 293-296):
`DlRegion::MakeIntersection(getRegion(), DlRegion(DlIRect::RoundOut(query)))`. -/
def region (s : DisplayListEmbedderViewSlice) (query : DlRect) : DlRegion :=
  DlRegion.MakeIntersection s.getRegion (DlRegion.ofIRect (DlIRect.RoundOut query))

end DisplayListEmbedderViewSlice

/-- `enum class PostPrerollResult` (`embedded_views.h` lines 272-282). -/
inductive PostPrerollResult where
  | kSuccess
  | kResubmitFrame
  | kSkipAndRetryFrame
deriving DecidableEq

/-- The state the `ExternalViewEmbedder` base class owns: the single
`used_this_frame_` boolean (`embedded_views.h` line 469), initialized to
`false`. -/
structure ExternalViewEmbedderState where
  used_this_frame : Bool
deriving DecidableEq

namespace ExternalViewEmbedderState

/-- `ExternalViewEmbedder()` — `used_this_frame_ = false`. -/
def init : ExternalViewEmbedderState := ⟨false⟩

/-- `ExternalViewEmbedder::SetUsedThisFrame(used_this_frame)`
(`embedded_views.h` lines 445-447): overwrites the flag. -/
def SetUsedThisFrame (_ : ExternalViewEmbedderState) (b : Bool) :
    ExternalViewEmbedderState := ⟨b⟩

/-- `ExternalViewEmbedder::GetUsedThisFrame` (`embedded_views.h` line 451). -/
def GetUsedThisFrame (s : ExternalViewEmbedderState) : Bool := s.used_this_frame

/-- The base-class default `EndFrame` (`embedded_views.h` lines 427-429):
an empty body, so the state is untouched. -/
def EndFrameDefault (s : ExternalViewEmbedderState)
    (_should_resubmit_frame : Bool) : ExternalViewEmbedderState := s

/-- The base-class default `PostPrerollAction` (`embedded_views.h` lines
390-393): returns `kSuccess` and touches nothing. -/
def PostPrerollActionDefault (s : ExternalViewEmbedderState) :
    PostPrerollResult × ExternalViewEmbedderState := (.kSuccess, s)

/-- The base-class default `PushVisitedPlatformView` (`embedded_views.h`
line 455): an empty body. -/
def PushVisitedPlatformViewDefault (s : ExternalViewEmbedderState)
    (_platform_view_id : ℤ) : ExternalViewEmbedderState := s

/-- The base-class default `PushFilterToVisitedPlatformViews`
(`embedded_views.h` lines 464-466): an empty body. -/
def PushFilterToVisitedPlatformViewsDefault (s : ExternalViewEmbedderState)
    (_filter : SharedPtr DlImageFilter) (_filterRect : DlRect) :
    ExternalViewEmbedderState := s

end ExternalViewEmbedderState

/-- One push operation on a `MutatorsStack`, carrying the fresh allocation
identity and the payload of the corresponding `Push*` call. -/
inductive PushOp where
  | clipRect (oid : ℕ) (rect : DlRect)
  | clipRRect (oid : ℕ) (rrect : DlRoundRect)
  | clipRSE (oid : ℕ) (rse : DlRoundSuperellipse)
  | clipPath (oid : ℕ) (path : DlPath)
  | transform (oid : ℕ) (matrix : DlMatrix)
  | opacity (oid : ℕ) (alpha : ℕ)
  | backdropFilter (oid : ℕ) (filter : SharedPtr DlImageFilter) (filterRect : DlRect)

namespace PushOp

/-- Dispatch one push operation to the corresponding `MutatorsStack` method. -/
def apply (s : MutatorsStack) : PushOp → MutatorsStack
  | .clipRect oid r => s.PushClipRect oid r
  | .clipRRect oid r => s.PushClipRRect oid r
  | .clipRSE oid r => s.PushClipRSE oid r
  | .clipPath oid p => s.PushClipPath oid p
  | .transform oid m => s.PushTransform oid m
  | .opacity oid a => s.PushOpacity oid a
  | .backdropFilter oid f r => s.PushBackdropFilter oid f r

/-- The shared entry a push operation appends. -/
def entry : PushOp → SharedPtr Mutator
  | .clipRect oid r => ⟨oid, .clipRect r⟩
  | .clipRRect oid r => ⟨oid, .clipRRect r⟩
  | .clipRSE oid r => ⟨oid, .clipRSE r⟩
  | .clipPath oid p => ⟨oid, .clipPath p⟩
  | .transform oid m => ⟨oid, .transform m⟩
  | .opacity oid a => ⟨oid, .opacity a⟩
  | .backdropFilter oid f r => ⟨oid, .backdropFilter ⟨f, r⟩⟩

/-- Run a sequence of push operations left to right. -/
def applyAll (s : MutatorsStack) (ops : List PushOp) : MutatorsStack :=
  ops.foldl PushOp.apply s

end PushOp

/-- Modelled from the spec: the events of one frame as the rasterizer drives
them. The code comments on `SetUsedThisFrame` ("it will be set to true when
BeginFrame and false when EndFrame", `embedded_views.h` lines 443-444) and
the lifecycle comment (lines 340-346) put the `SetUsedThisFrame` calls in
the caller, outside `src/`; the event step function folds them in. -/
inductive FrameEvent where
  | beginFrame
  | prerollCompositeEmbeddedView
  | postPrerollAction
  | prepareFlutterView
  | submitFlutterView
  | endFrame
deriving DecidableEq

namespace FrameEvent

/-- Modelled from the spec: the effect of one frame event on the
`used_this_frame_` flag — `BeginFrame` sets it true, `EndFrame` sets it
false, every other event leaves it unchanged. -/
def step (b : Bool) : FrameEvent → Bool
  | .beginFrame => true
  | .endFrame => false
  | _ => b

/-- The flag after running a list of frame events from the given value. -/
def run (b : Bool) (es : List FrameEvent) : Bool := es.foldl step b

/-- `prepareFlutterView`/`submitFlutterView` repeated `n` times. -/
def submitPairs : ℕ → List FrameEvent
  | 0 => []
  | n + 1 => [prepareFlutterView, submitFlutterView] ++ submitPairs n

/-- One full frame: `BeginFrame`, `a` preroll calls, `PostPrerollAction`,
`p` prepare/submit pairs, `EndFrame`. -/
def frameSeq (a p : ℕ) : List FrameEvent :=
  [beginFrame] ++ List.replicate a prerollCompositeEmbeddedView ++
    [postPrerollAction] ++ submitPairs p ++ [endFrame]

end FrameEvent

/-- One call to a base-class `ExternalViewEmbedder` member that is
implemented in the header (the virtual defaults plus the flag setter). -/
inductive BaseOp where
  | setUsedThisFrame (b : Bool)
  | endFrameDefault (should_resubmit_frame : Bool)
  | postPrerollActionDefault
  | pushVisitedPlatformViewDefault (platform_view_id : ℤ)
  | pushFilterToVisitedPlatformViewsDefault (filter : SharedPtr DlImageFilter)
      (filterRect : DlRect)

namespace BaseOp

/-- Dispatch one base-class call to its header implementation. -/
def apply (s : ExternalViewEmbedderState) : BaseOp → ExternalViewEmbedderState
  | .setUsedThisFrame b => s.SetUsedThisFrame b
  | .endFrameDefault r => s.EndFrameDefault r
  | .postPrerollActionDefault => (s.PostPrerollActionDefault).2
  | .pushVisitedPlatformViewDefault i => s.PushVisitedPlatformViewDefault i
  | .pushFilterToVisitedPlatformViewsDefault f r =>
      s.PushFilterToVisitedPlatformViewsDefault f r

/-- Run a sequence of base-class calls left to right. -/
def applyAll (s : ExternalViewEmbedderState) (ops : List BaseOp) :
    ExternalViewEmbedderState :=
  ops.foldl BaseOp.apply s

/-- The argument of the last `SetUsedThisFrame` call in the sequence, if
any call occurs. -/
def lastSet (ops : List BaseOp) : Option Bool :=
  ops.foldl (fun acc op => match op with | .setUsedThisFrame b => some b | _ => acc)
    none

end BaseOp

/-- One `BaseOp.lastSet` fold step. -/
def BaseOp.lastSetStep (acc : Option Bool) (op : BaseOp) : Option Bool :=
  match op with
  | .setUsedThisFrame b => some b
  | _ => acc

/-! ## Theorems -/

/-- C3: for every `Mutator`, `GetType()` returns the tag of the variant it
was constructed with, the matching typed accessor returns the constructed
payload, and every typed accessor for a different tag fails with
`TypeMismatch`. -/
theorem mutator_type_determines_accessor (r : DlRect) (rr : DlRoundRect)
    (rse : DlRoundSuperellipse) (p : DlPath) (mx : DlMatrix) (a : ℕ)
    (fm : ImageFilterMutation) :
    (Mutator.clipRect r).GetType = MutatorType.kClipRect ∧
    (Mutator.clipRRect rr).GetType = MutatorType.kClipRRect ∧
    (Mutator.clipRSE rse).GetType = MutatorType.kClipRSE ∧
    (Mutator.clipPath p).GetType = MutatorType.kClipPath ∧
    (Mutator.transform mx).GetType = MutatorType.kTransform ∧
    (Mutator.opacity a).GetType = MutatorType.kOpacity ∧
    (Mutator.backdropFilter fm).GetType = MutatorType.kBackdropFilter ∧
    (Mutator.clipRect r).GetRect = Except.ok r ∧
    (Mutator.clipRRect rr).GetRRect = Except.ok rr ∧
    (Mutator.clipRSE rse).GetRSE = Except.ok rse ∧
    (Mutator.clipPath p).GetPath = Except.ok p ∧
    (Mutator.transform mx).GetMatrix = Except.ok mx ∧
    (Mutator.opacity a).GetAlpha = Except.ok a ∧
    (Mutator.backdropFilter fm).GetFilterMutation = Except.ok fm ∧
    (Mutator.clipRect r).GetRRect = Except.error CoreError.typeMismatch ∧
    (Mutator.clipRect r).GetRSE = Except.error CoreError.typeMismatch ∧
    (Mutator.clipRect r).GetPath = Except.error CoreError.typeMismatch ∧
    (Mutator.clipRect r).GetMatrix = Except.error CoreError.typeMismatch ∧
    (Mutator.clipRect r).GetAlpha = Except.error CoreError.typeMismatch ∧
    (Mutator.clipRect r).GetFilterMutation = Except.error CoreError.typeMismatch ∧
    (Mutator.clipRRect rr).GetRect = Except.error CoreError.typeMismatch ∧
    (Mutator.clipRRect rr).GetRSE = Except.error CoreError.typeMismatch ∧
    (Mutator.clipRRect rr).GetPath = Except.error CoreError.typeMismatch ∧
    (Mutator.clipRRect rr).GetMatrix = Except.error CoreError.typeMismatch ∧
    (Mutator.clipRRect rr).GetAlpha = Except.error CoreError.typeMismatch ∧
    (Mutator.clipRRect rr).GetFilterMutation = Except.error CoreError.typeMismatch ∧
    (Mutator.clipRSE rse).GetRect = Except.error CoreError.typeMismatch ∧
    (Mutator.clipRSE rse).GetRRect = Except.error CoreError.typeMismatch ∧
    (Mutator.clipRSE rse).GetPath = Except.error CoreError.typeMismatch ∧
    (Mutator.clipRSE rse).GetMatrix = Except.error CoreError.typeMismatch ∧
    (Mutator.clipRSE rse).GetAlpha = Except.error CoreError.typeMismatch ∧
    (Mutator.clipRSE rse).GetFilterMutation = Except.error CoreError.typeMismatch ∧
    (Mutator.clipPath p).GetRect = Except.error CoreError.typeMismatch ∧
    (Mutator.clipPath p).GetRRect = Except.error CoreError.typeMismatch ∧
    (Mutator.clipPath p).GetRSE = Except.error CoreError.typeMismatch ∧
    (Mutator.clipPath p).GetMatrix = Except.error CoreError.typeMismatch ∧
    (Mutator.clipPath p).GetAlpha = Except.error CoreError.typeMismatch ∧
    (Mutator.clipPath p).GetFilterMutation = Except.error CoreError.typeMismatch ∧
    (Mutator.transform mx).GetRect = Except.error CoreError.typeMismatch ∧
    (Mutator.transform mx).GetRRect = Except.error CoreError.typeMismatch ∧
    (Mutator.transform mx).GetRSE = Except.error CoreError.typeMismatch ∧
    (Mutator.transform mx).GetPath = Except.error CoreError.typeMismatch ∧
    (Mutator.transform mx).GetAlpha = Except.error CoreError.typeMismatch ∧
    (Mutator.transform mx).GetFilterMutation = Except.error CoreError.typeMismatch ∧
    (Mutator.opacity a).GetRect = Except.error CoreError.typeMismatch ∧
    (Mutator.opacity a).GetRRect = Except.error CoreError.typeMismatch ∧
    (Mutator.opacity a).GetRSE = Except.error CoreError.typeMismatch ∧
    (Mutator.opacity a).GetPath = Except.error CoreError.typeMismatch ∧
    (Mutator.opacity a).GetMatrix = Except.error CoreError.typeMismatch ∧
    (Mutator.opacity a).GetFilterMutation = Except.error CoreError.typeMismatch ∧
    (Mutator.backdropFilter fm).GetRect = Except.error CoreError.typeMismatch ∧
    (Mutator.backdropFilter fm).GetRRect = Except.error CoreError.typeMismatch ∧
    (Mutator.backdropFilter fm).GetRSE = Except.error CoreError.typeMismatch ∧
    (Mutator.backdropFilter fm).GetPath = Except.error CoreError.typeMismatch ∧
    (Mutator.backdropFilter fm).GetMatrix = Except.error CoreError.typeMismatch ∧
    (Mutator.backdropFilter fm).GetAlpha = Except.error CoreError.typeMismatch := by
  repeat' apply And.intro
  all_goals rfl

/-- C9: `IsClipType()` is true exactly when `GetType()` is one of the four
clip tags, and false when it is `kTransform`, `kOpacity` or
`kBackdropFilter`. -/
theorem mutator_is_clip_type (m : Mutator) :
    (m.IsClipType = true ↔
      (m.GetType = MutatorType.kClipRect ∨ m.GetType = MutatorType.kClipRRect ∨
        m.GetType = MutatorType.kClipRSE ∨ m.GetType = MutatorType.kClipPath)) ∧
    (m.IsClipType = false ↔
      (m.GetType = MutatorType.kTransform ∨ m.GetType = MutatorType.kOpacity ∨
        m.GetType = MutatorType.kBackdropFilter)) := by
  cases m <;> simp [Mutator.IsClipType, Mutator.GetType]

/-- C9 witness: evaluated at an opacity mutator and a clip-rect mutator. -/
theorem mutator_is_clip_type_witness :
    (Mutator.opacity 128).IsClipType = false ∧
    (Mutator.clipRect ⟨0, 0, 1, 1⟩).IsClipType = true :=
  ⟨(mutator_is_clip_type (Mutator.opacity 128)).2.mpr (Or.inr (Or.inl rfl)),
    (mutator_is_clip_type (Mutator.clipRect ⟨0, 0, 1, 1⟩)).1.mpr (Or.inl rfl)⟩

/-- C1: `finalBoundingRect()` equals
`TransformAndClipBounds(Rect(0, 0, size), matrix)`, computed eagerly at
construction; in particular a translation by `(10, 10)` of a `(50, 50)`
view yields the rectangle `(10, 10, 60, 60)`. -/
theorem embedded_view_params_final_bounding_rect (M : DlMatrix) (S : DlSize)
    (ST ST2 : MutatorsStack) :
    (EmbeddedViewParams.construct M S ST).finalBoundingRect =
      (DlRect.MakeSize S).TransformAndClipBounds M ∧
    (EmbeddedViewParams.construct (DlMatrix.translate 10 10) ⟨50, 50⟩
        ST2).finalBoundingRect = ⟨10, 10, 60, 60⟩ := by
  constructor
  · rfl
  · show (DlRect.MakeSize ⟨50, 50⟩).TransformAndClipBounds (DlMatrix.translate 10 10) =
      (⟨10, 10, 60, 60⟩ : DlRect)
    simp only [DlRect.MakeSize, DlRect.TransformAndClipBounds,
      DlMatrix.transformPoint, DlMatrix.translate]
    norm_num

/-- C2: `PushImageFilter(filter, rect)` appends exactly one backdrop-filter
mutator to the owned stack (the count grows by one) and leaves
`finalBoundingRect()`, `transformMatrix()` and `sizePoints()` untouched. -/
theorem embedded_view_params_push_image_filter (p : EmbeddedViewParams)
    (oid : ℕ) (filter : SharedPtr DlImageFilter) (filterRect : DlRect) :
    (p.PushImageFilter oid filter filterRect).mutatorsStack.vector =
      p.mutatorsStack.vector ++
        [⟨oid, Mutator.backdropFilter ⟨filter, filterRect⟩⟩] ∧
    (p.PushImageFilter oid filter filterRect).mutatorsStack.stack_count =
      p.mutatorsStack.stack_count + 1 ∧
    (p.PushImageFilter oid filter filterRect).finalBoundingRect =
      p.finalBoundingRect ∧
    (p.PushImageFilter oid filter filterRect).matrix = p.matrix ∧
    (p.PushImageFilter oid filter filterRect).sizePoints = p.sizePoints := by
  refine ⟨rfl, ?_, rfl, rfl, rfl⟩
  simp [EmbeddedViewParams.PushImageFilter, MutatorsStack.PushBackdropFilter,
    MutatorsStack.stack_count]

/-- C8: `Pop()` removes exactly the most recently pushed entry when the
stack is non-empty — after `[ClipRect, Opacity(128)]` one `Pop` leaves a
single `ClipRect` entry — and `Pop()` on an empty stack fails with
`EmptyStack`. -/
theorem mutators_stack_pop (t : MutatorsStack) (op : PushOp) (r : DlRect)
    (i j : ℕ) :
    (op.apply t).Pop = Except.ok t ∧
    MutatorsStack.empty.Pop = Except.error CoreError.emptyStack ∧
    ((MutatorsStack.empty.PushClipRect i r).PushOpacity j 128).Pop =
      Except.ok (MutatorsStack.empty.PushClipRect i r) ∧
    (MutatorsStack.empty.PushClipRect i r).stack_count = 1 ∧
    ((MutatorsStack.empty.PushClipRect i r).vector.map fun e =>
      e.payload.GetType) = [MutatorType.kClipRect] ∧
    (MutatorsStack.empty.PushClipRect i r).Pop = Except.ok MutatorsStack.empty := by
  refine ⟨?_, rfl, rfl, rfl, rfl, rfl⟩
  cases op <;>
    simp [PushOp.apply, MutatorsStack.Pop, MutatorsStack.PushClipRect,
      MutatorsStack.PushClipRRect, MutatorsStack.PushClipRSE,
      MutatorsStack.PushClipPath, MutatorsStack.PushTransform,
      MutatorsStack.PushOpacity, MutatorsStack.PushBackdropFilter]

theorem BaseOp.lastSet_eq_foldl (ops : List BaseOp) :
    BaseOp.lastSet ops = ops.foldl BaseOp.lastSetStep none := by
  unfold BaseOp.lastSet
  congr 1

theorem BaseOp.foldl_lastSetStep (ops : List BaseOp) :
    ∀ acc : Option Bool,
      ops.foldl BaseOp.lastSetStep acc =
        match ops.foldl BaseOp.lastSetStep none with
        | some b => some b
        | none => acc := by
  induction ops with
  | nil => intro acc; rfl
  | cons op rest ih =>
    intro acc
    show rest.foldl BaseOp.lastSetStep (BaseOp.lastSetStep acc op) = _
    rw [ih (BaseOp.lastSetStep acc op)]
    show _ = match rest.foldl BaseOp.lastSetStep (BaseOp.lastSetStep none op) with
      | some b => some b
      | none => acc
    rw [ih (BaseOp.lastSetStep none op)]
    cases h : rest.foldl BaseOp.lastSetStep none with
    | some b => rfl
    | none => cases op <;> rfl

theorem BaseOp.applyAll_used (ops : List BaseOp) :
    ∀ s : ExternalViewEmbedderState,
      (BaseOp.applyAll s ops).GetUsedThisFrame =
        (BaseOp.lastSet ops).getD s.used_this_frame := by
  induction ops with
  | nil => intro s; rfl
  | cons op rest ih =>
    intro s
    show (BaseOp.applyAll (BaseOp.apply s op) rest).GetUsedThisFrame = _
    rw [ih (BaseOp.apply s op)]
    rw [BaseOp.lastSet_eq_foldl, BaseOp.lastSet_eq_foldl]
    show _ = (rest.foldl BaseOp.lastSetStep (BaseOp.lastSetStep none op)).getD
      s.used_this_frame
    rw [BaseOp.foldl_lastSetStep rest (BaseOp.lastSetStep none op)]
    cases h : rest.foldl BaseOp.lastSetStep none with
    | some b => rfl
    | none => cases op <;> rfl

/-- C10: on the base class the flag is changed only by `SetUsedThisFrame`:
starting from a fresh instance it reads `false` until the first
`SetUsedThisFrame` and thereafter exactly the last value passed; the
header's default `EndFrame`, `PostPrerollAction` (which returns
`kSuccess`), `PushVisitedPlatformView` and `PushFilterToVisitedPlatformViews`
leave it unchanged. -/
theorem external_view_embedder_flag_only_set (ops : List BaseOp)
    (s : ExternalViewEmbedderState) :
    (BaseOp.applyAll ExternalViewEmbedderState.init ops).GetUsedThisFrame =
      (BaseOp.lastSet ops).getD false ∧
    ExternalViewEmbedderState.init.GetUsedThisFrame = false ∧
    (s.PostPrerollActionDefault).1 = PostPrerollResult.kSuccess ∧
    (s.EndFrameDefault true).GetUsedThisFrame = s.GetUsedThisFrame ∧
    (s.EndFrameDefault false).GetUsedThisFrame = s.GetUsedThisFrame := by
  exact ⟨BaseOp.applyAll_used ops ExternalViewEmbedderState.init, rfl, rfl, rfl, rfl⟩

theorem DlIRect.intersect_memPt (a b : DlIRect) (x y : ℤ) :
    (a.intersect b).memPt x y ↔ a.memPt x y ∧ b.memPt x y := by
  simp only [DlIRect.memPt, DlIRect.intersect, max_le_iff, lt_min_iff]
  tauto

theorem DlRegion.makeIntersection_memPt (a b : DlRegion) (x y : ℤ) :
    (DlRegion.MakeIntersection a b).memPt x y ↔ a.memPt x y ∧ b.memPt x y := by
  simp only [DlRegion.MakeIntersection, DlRegion.memPt, List.mem_flatten,
    List.mem_map]
  constructor
  · rintro ⟨t, ⟨l, ⟨ra, hra, rfl⟩, hl⟩, hmem⟩
    obtain ⟨rb, hrb, rfl⟩ := List.mem_map.mp hl
    rw [DlIRect.intersect_memPt] at hmem
    exact ⟨⟨ra, hra, hmem.1⟩, ⟨rb, hrb, hmem.2⟩⟩
  · rintro ⟨⟨ra, hra, hma⟩, ⟨rb, hrb, hmb⟩⟩
    refine ⟨ra.intersect rb, ⟨b.rects.map fun s => ra.intersect s, ⟨ra, hra, rfl⟩,
      List.mem_map.mpr ⟨rb, hrb, rfl⟩⟩, ?_⟩
    exact (DlIRect.intersect_memPt ra rb x y).mpr ⟨hma, hmb⟩

theorem DlRegion.ofIRect_memPt (r : DlIRect) (x y : ℤ) :
    (DlRegion.ofIRect r).memPt x y ↔ r.memPt x y := by
  simp [DlRegion.ofIRect, DlRegion.memPt]

/-- C4: after `end_recording()`, `region(Q)` has exactly the points of the
recorded region (`getRegion()`) that lie in `Q` rounded outward to the
smallest enclosing integer rectangle; if nothing was drawn (`is_empty()`),
`region(Q)` is empty for every query. -/
theorem slice_region_query (s : DisplayListEmbedderViewSlice) (Q : DlRect)
    (x y : ℤ) (_hrec : s.recordingEnded = true) :
    ((s.region Q).memPt x y ↔
      s.getRegion.memPt x y ∧ (DlIRect.RoundOut Q).memPt x y) ∧
    (s.is_empty = true → ¬(s.region Q).memPt x y) := by
  constructor
  · rw [DisplayListEmbedderViewSlice.region, DlRegion.makeIntersection_memPt,
      DlRegion.ofIRect_memPt]
  · intro hemp hmem
    rw [DisplayListEmbedderViewSlice.region, DlRegion.makeIntersection_memPt]
      at hmem
    obtain ⟨⟨r, hr, _⟩, _⟩ := hmem
    rw [DisplayListEmbedderViewSlice.getRegion] at hr
    simp only [DisplayListEmbedderViewSlice.is_empty, List.isEmpty_iff] at hemp
    rw [hemp] at hr
    exact (List.not_mem_nil r) hr

/-- C4 witness: a slice that recorded `(0,0,10,10)`, queried with
`(5,5,30,30)` at the point `(7,7)`, and an empty ended slice at `(3,3)`. -/
theorem slice_region_query_witness :
    (((⟨[⟨0, 0, 10, 10⟩], true⟩ : DisplayListEmbedderViewSlice).region
        ⟨5, 5, 30, 30⟩).memPt 7 7 ↔
      ((⟨[⟨0, 0, 10, 10⟩], true⟩ : DisplayListEmbedderViewSlice).getRegion.memPt
          7 7 ∧
        (DlIRect.RoundOut ⟨5, 5, 30, 30⟩).memPt 7 7)) ∧
    ¬((⟨[], true⟩ : DisplayListEmbedderViewSlice).region ⟨5, 5, 30, 30⟩).memPt
      3 3 :=
  ⟨(slice_region_query ⟨[⟨0, 0, 10, 10⟩], true⟩ ⟨5, 5, 30, 30⟩ 7 7 rfl).1,
    (slice_region_query ⟨[], true⟩ ⟨5, 5, 30, 30⟩ 3 3 rfl).2 rfl⟩

theorem Mutator.beq_refl (m : Mutator) : m.beq m = true := by
  cases m <;> simp [Mutator.beq, ImageFilterMutation.beq]

theorem MutatorsStack.zip_all_beq_refl (l : List (SharedPtr Mutator)) :
    (List.zip l l).all (fun q => q.1.payload.beq q.2.payload) = true := by
  induction l with
  | nil => rfl
  | cons a t ih =>
    rw [List.zip_cons_cons, List.all_cons, ih]
    simp [Mutator.beq_refl]

theorem MutatorsStack.zip_all_beq_of_payload_eq :
    ∀ (e1 e2 : List (SharedPtr Mutator)),
      e1.map SharedPtr.payload = e2.map SharedPtr.payload →
      (List.zip e1 e2).all (fun q => q.1.payload.beq q.2.payload) = true := by
  intro e1
  induction e1 with
  | nil => intro e2 _; rfl
  | cons a t ih =>
    intro e2 h
    cases e2 with
    | nil => simp at h
    | cons b t2 =>
      simp only [List.map_cons, List.cons.injEq] at h
      rw [List.zip_cons_cons, List.all_cons, ih t2 h.2]
      rw [Bool.and_true, h.1, Mutator.beq_refl]

theorem PushOp.applyAll_vector (ops : List PushOp) :
    ∀ s : MutatorsStack,
      (PushOp.applyAll s ops).vector = s.vector ++ ops.map PushOp.entry := by
  induction ops with
  | nil => intro s; simp [PushOp.applyAll]
  | cons op rest ih =>
    intro s
    show (PushOp.applyAll (PushOp.apply s op) rest).vector = _
    rw [ih (PushOp.apply s op)]
    have happ : (PushOp.apply s op).vector = s.vector ++ [op.entry] := by
      cases op <;> rfl
    rw [happ, List.map_cons, List.append_assoc]
    rfl

/-- C5: pushing `P1..Pn` on a stack and then calling `PopTo(k)` (for
`k ≤ n`) yields a stack equal, by the stack's value equality, to the one
obtained by pushing only `P1..Pk`, and its `stack_count()` is `k`. -/
theorem mutators_stack_pop_to (ops : List PushOp) (k : ℕ)
    (hk : k ≤ ops.length) :
    ((PushOp.applyAll MutatorsStack.empty ops).PopTo k).eqStack
      (PushOp.applyAll MutatorsStack.empty (ops.take k)) = true ∧
    ((PushOp.applyAll MutatorsStack.empty ops).PopTo k).stack_count = k := by
  have hvec : (PushOp.applyAll MutatorsStack.empty ops).vector =
      ops.map PushOp.entry := by
    rw [PushOp.applyAll_vector]; rfl
  have hvec2 : (PushOp.applyAll MutatorsStack.empty (ops.take k)).vector =
      (ops.take k).map PushOp.entry := by
    rw [PushOp.applyAll_vector]; rfl
  have htake : ((PushOp.applyAll MutatorsStack.empty ops).PopTo k).vector =
      (ops.take k).map PushOp.entry := by
    rw [MutatorsStack.PopTo, hvec, List.map_take]
  constructor
  · rw [MutatorsStack.eqStack, htake, hvec2]
    simp [MutatorsStack.zip_all_beq_refl]
  · rw [MutatorsStack.stack_count, htake, List.length_map, List.length_take]
    exact Nat.min_eq_left hk

/-- C5 witness: two pushes followed by `PopTo(1)`. -/
theorem mutators_stack_pop_to_witness :
    (1 : ℕ) ≤ ([PushOp.clipRect 0 ⟨0, 0, 100, 100⟩,
        PushOp.opacity 1 128] : List PushOp).length ∧
    ((PushOp.applyAll MutatorsStack.empty
          [PushOp.clipRect 0 ⟨0, 0, 100, 100⟩, PushOp.opacity 1 128]).PopTo
        1).eqStack
      (PushOp.applyAll MutatorsStack.empty
        ([PushOp.clipRect 0 ⟨0, 0, 100, 100⟩, PushOp.opacity 1 128].take 1)) =
        true ∧
    ((PushOp.applyAll MutatorsStack.empty
          [PushOp.clipRect 0 ⟨0, 0, 100, 100⟩, PushOp.opacity 1 128]).PopTo
        1).stack_count = 1 := by
  refine ⟨by decide, ?_⟩
  exact mutators_stack_pop_to
    [PushOp.clipRect 0 ⟨0, 0, 100, 100⟩, PushOp.opacity 1 128] 1 (by decide)

/-- C7: stack equality is element-wise by value — a stack built from pushes
equals the plain ordered list of the same mutators; two stacks whose
entries hold equal payloads in distinct heap objects are equal; stacks of
different lengths are never equal. -/
theorem mutators_stack_value_equality (ops : List PushOp)
    (e1 e2 : List (SharedPtr Mutator)) (s1 s2 : MutatorsStack)
    (hpayload : e1.map SharedPtr.payload = e2.map SharedPtr.payload)
    (hcount : s1.stack_count ≠ s2.stack_count) :
    (PushOp.applyAll MutatorsStack.empty ops).eqMutators
      (ops.map fun op => op.entry.payload) = true ∧
    (MutatorsStack.mk e1).eqStack (MutatorsStack.mk e2) = true ∧
    s1.eqStack s2 = false := by
  refine ⟨?_, ?_, ?_⟩
  · have hvec : (PushOp.applyAll MutatorsStack.empty ops).vector =
        ops.map PushOp.entry := by
      rw [PushOp.applyAll_vector]; rfl
    rw [MutatorsStack.eqMutators, hvec]
    simp only [List.length_map, beq_self_eq_true, Bool.true_and]
    have : ∀ l : List (SharedPtr Mutator),
        (List.zip l (l.map SharedPtr.payload)).all
          (fun q => q.1.payload.beq q.2) = true := by
      intro l
      induction l with
      | nil => rfl
      | cons a t ih =>
        rw [List.map_cons, List.zip_cons_cons, List.all_cons, ih]
        simp [Mutator.beq_refl]
    have hmaps : (ops.map fun op => op.entry.payload) =
        (ops.map PushOp.entry).map SharedPtr.payload := by
      rw [List.map_map]; rfl
    rw [hmaps]
    exact this (ops.map PushOp.entry)
  · have hlen : e1.length = e2.length := by
      have := congrArg List.length hpayload
      simpa using this
    rw [MutatorsStack.eqStack]
    simp only [hlen, beq_self_eq_true, Bool.true_and]
    exact MutatorsStack.zip_all_beq_of_payload_eq e1 e2 hpayload
  · rw [MutatorsStack.eqStack]
    have : (s1.vector.length == s2.vector.length) = false := by
      exact beq_eq_false_iff_ne.mpr hcount
    rw [this, Bool.false_and]

/-- C7 witness: same payloads under distinct object identities, and a
length-1 stack against a length-0 stack. -/
theorem mutators_stack_value_equality_witness :
    (([⟨5, Mutator.opacity 128⟩] : List (SharedPtr Mutator)).map
        SharedPtr.payload =
      ([⟨9, Mutator.opacity 128⟩] : List (SharedPtr Mutator)).map
        SharedPtr.payload) ∧
    (MutatorsStack.mk [⟨5, Mutator.opacity 128⟩]).eqStack
      (MutatorsStack.mk [⟨9, Mutator.opacity 128⟩]) = true ∧
    (MutatorsStack.mk [⟨0, Mutator.opacity 128⟩]).eqStack
      (MutatorsStack.mk []) = false := by
  have h := mutators_stack_value_equality []
    [⟨5, Mutator.opacity 128⟩] [⟨9, Mutator.opacity 128⟩]
    (MutatorsStack.mk [⟨0, Mutator.opacity 128⟩]) (MutatorsStack.mk [])
    rfl (by decide)
  exact ⟨rfl, h.2.1, h.2.2⟩

theorem FrameEvent.run_true_of_no_endFrame :
    ∀ l : List FrameEvent, (∀ e ∈ l, e ≠ FrameEvent.endFrame) →
      FrameEvent.run true l = true := by
  intro l
  induction l with
  | nil => intro _; rfl
  | cons e t ih =>
    intro h
    show FrameEvent.run (FrameEvent.step true e) t = true
    have hs : FrameEvent.step true e = true := by
      cases e <;> first | rfl | exact absurd rfl (h _ (List.mem_cons_self _ _))
    rw [hs]
    exact ih fun e' he' => h e' (List.mem_cons_of_mem _ he')

theorem FrameEvent.mem_submitPairs :
    ∀ (p : ℕ) (e : FrameEvent), e ∈ FrameEvent.submitPairs p →
      e = FrameEvent.prepareFlutterView ∨ e = FrameEvent.submitFlutterView := by
  intro p
  induction p with
  | zero => intro e he; simp [FrameEvent.submitPairs] at he
  | succ n ih =>
    intro e he
    simp only [FrameEvent.submitPairs, List.cons_append, List.nil_append,
      List.mem_cons] at he
    rcases he with rfl | rfl | he
    · exact Or.inl rfl
    · exact Or.inr rfl
    · exact ih e he

/-- C6: across one full frame — `BeginFrame`, prerolls, `PostPrerollAction`,
prepare/submit pairs, `EndFrame` — the `used_this_frame` flag reads `true`
at every point strictly between `BeginFrame` and `EndFrame`, and `false`
immediately before `BeginFrame` (the fresh value) and immediately after
`EndFrame`. -/
theorem frame_lifecycle_flag (a p k : ℕ) (hk0 : 0 < k)
    (hklt : k < (FrameEvent.frameSeq a p).length) :
    FrameEvent.run false ((FrameEvent.frameSeq a p).take 0) = false ∧
    FrameEvent.run false ((FrameEvent.frameSeq a p).take k) = true ∧
    FrameEvent.run false (FrameEvent.frameSeq a p) = false := by
  set mid : List FrameEvent :=
    List.replicate a FrameEvent.prerollCompositeEmbeddedView ++
      [FrameEvent.postPrerollAction] ++ FrameEvent.submitPairs p with hmid
  have hseq : FrameEvent.frameSeq a p =
      FrameEvent.beginFrame :: (mid ++ [FrameEvent.endFrame]) := by
    simp [FrameEvent.frameSeq, hmid, List.append_assoc]
  have hmem : ∀ e ∈ mid, e ≠ FrameEvent.endFrame := by
    intro e he
    rw [hmid] at he
    rcases List.mem_append.mp he with he' | he'
    · rcases List.mem_append.mp he' with he'' | he''
      · rw [List.eq_of_mem_replicate he'']
        intro hc
        exact FrameEvent.noConfusion hc
      · rw [List.mem_singleton.mp he'']
        intro hc
        exact FrameEvent.noConfusion hc
    · rcases FrameEvent.mem_submitPairs p e he' with rfl | rfl <;>
        (intro hc; exact FrameEvent.noConfusion hc)
  refine ⟨rfl, ?_, ?_⟩
  · cases k with
    | zero => exact absurd hk0 (by simp)
    | succ k' =>
      rw [hseq]
      show FrameEvent.run false
        (FrameEvent.beginFrame :: (mid ++ [FrameEvent.endFrame]).take k') = true
      show FrameEvent.run true ((mid ++ [FrameEvent.endFrame]).take k') = true
      have hk'le : k' ≤ mid.length := by
        rw [hseq] at hklt
        simp only [List.length_cons, List.length_append, List.length_singleton,
          List.length_nil] at hklt
        omega
      rw [List.take_append_eq_append_take, Nat.sub_eq_zero_of_le hk'le,
        List.take_zero, List.append_nil]
      exact FrameEvent.run_true_of_no_endFrame _ fun e he =>
        hmem e (List.mem_of_mem_take he)
  · rw [hseq]
    show FrameEvent.run true (mid ++ [FrameEvent.endFrame]) = false
    rw [FrameEvent.run, List.foldl_append]
    rfl

/-- C6 witness: one preroll and one prepare/submit pair, probed after the
second event. -/
theorem frame_lifecycle_flag_witness :
    FrameEvent.run false ((FrameEvent.frameSeq 1 1).take 0) = false ∧
    FrameEvent.run false ((FrameEvent.frameSeq 1 1).take 2) = true ∧
    FrameEvent.run false (FrameEvent.frameSeq 1 1) = false :=
  frame_lifecycle_flag 1 1 2 (by decide) (by decide)

end EmbeddedViews
